import Mathlib

/-!
# Verification of the ai-dev-infrastructure core

A shallow embedding of the routing/classification logic, agent selection,
tool recommendation and the three-tier cache of the repository
(`src/backend/src/router/intelligent_router.py`, `src/backend/src/api/app.py`,
`src/backend/src/cache/intelligent_cache.py`, `src/backend/src/mcp/manager.py`),
together with theorems settling the specification's claims about them.

Python machine-level details are modelled as follows: strings are Lean
`String`s (all inputs of interest are printable ASCII, on which Python's
`str.lower`/`str.split` agree with the Lean models below); floating-point
scores and distances are modelled as rationals (only order comparisons and
literal values occur in the embedded code); dictionaries are association
lists with distinct keys.
-/

namespace AIDev

/-! ## Python string primitives -/

/-- Python `needle in hay` (substring containment) on character lists. -/
def listContainsSub (pat : List Char) : List Char → Bool
  | [] => pat.isEmpty
  | c :: cs => pat.isPrefixOf (c :: cs) || listContainsSub pat cs

/-- Python `pat in hay` for strings. -/
def strContainsSub (hay pat : String) : Bool :=
  listContainsSub pat.toList hay.toList

/-- Python `s.lower()` (ASCII case folding, which is all the embedded
keyword matching needs). -/
def pyLower (s : String) : String :=
  String.mk (s.toList.map Char.toLower)

/-- Helper for `pyWordCount`: counts maximal whitespace-free runs; the flag
records whether the previous character was part of a word. -/
def wcAux : Bool → List Char → Nat
  | _, [] => 0
  | inWord, c :: cs =>
    if c.isWhitespace then wcAux false cs
    else (if inWord then 0 else 1) + wcAux true cs

/-- Python `len(s.split())`: the number of whitespace-separated words. -/
def pyWordCount (s : String) : Nat := wcAux false s.toList

/-- Python `sum(1 for kw in kws if kw in q)`. -/
def countMatches (kws : List String) (q : String) : Nat :=
  (kws.filter (fun kw => strContainsSub q kw)).length

/-! ## The two query classifiers

`Route` is the enumerated routing decision: `ollama` is the local small
model (`local-model`), `claude` the hosted frontier model (`hosted-model`)
and `oracle` the database-analytics engine (`analytics-engine`). -/

inductive Route where
  | ollama
  | claude
  | oracle
deriving DecidableEq, Repr

/-- Embeds `IntelligentAgentRouter.simple_keywords`
(`src/backend/src/router/intelligent_router.py`). -/
def simple_keywords : List String :=
  ["summarize", "summary", "tldr", "brief", "short",
   "classify", "category", "type", "intent",
   "simple", "quick", "basic", "what is", "define",
   "translate", "extract", "convert", "format", "list"]

/-- Embeds `IntelligentAgentRouter.complex_keywords`. -/
def complex_keywords : List String :=
  ["develop", "build", "create code", "implement", "refactor",
   "architect", "design", "analyze deeply", "reason about",
   "strategic", "complex", "debug", "optimize", "review code"]

/-- Embeds `IntelligentAgentRouter.oracle_keywords`. -/
def oracle_keywords : List String :=
  ["sql", "database", "query data", "analyze database",
   "schema", "migration", "graph", "aggregate", "join"]

/-- Embeds `IntelligentAgentRouter.classify_query_complexity`
(`src/backend/src/router/intelligent_router.py`, lines 80-108). -/
def classify_query_complexity (query : String) : Route :=
  if oracle_keywords.any (fun kw => strContainsSub (pyLower query) kw) then
    Route.oracle
  else if 2 ≤ countMatches complex_keywords (pyLower query) then
    Route.claude
  else if 2 ≤ countMatches simple_keywords (pyLower query) then
    Route.ollama
  else if pyWordCount query < 20 then
    Route.ollama
  else if ["code", "develop", "build"].any
      (fun kw => strContainsSub (pyLower query) kw) then
    Route.claude
  else
    Route.ollama

/-- Embeds `SIMPLE_KEYWORDS` (`src/backend/src/api/app.py`). -/
def SIMPLE_KEYWORDS : List String :=
  ["summarize", "summary", "tldr", "brief", "short",
   "classify", "category", "what is", "define", "explain simply",
   "translate", "extract", "convert", "format", "list"]

/-- Embeds `COMPLEX_KEYWORDS` (`src/backend/src/api/app.py`). -/
def COMPLEX_KEYWORDS : List String :=
  ["develop", "build", "create", "implement", "refactor",
   "architect", "design", "analyze", "debug", "optimize",
   "review code", "write code", "fix bug", "improve"]

/-- Embeds `classify_query` (`src/backend/src/api/app.py`, lines 152-170). -/
def classify_query (query : String) : Route :=
  if 1 ≤ countMatches COMPLEX_KEYWORDS (pyLower query) then
    Route.claude
  else if 1 ≤ countMatches SIMPLE_KEYWORDS (pyLower query) then
    Route.ollama
  else if pyWordCount query < 15 then
    Route.ollama
  else
    Route.claude

/-! ## Agents and the keyword selection path

`Agent` embeds the entries of `DEFAULT_AGENTS` in `src/backend/src/api/app.py`.
The free-text `purpose` and `system_prompt` fields are elided: the selection
logic reads only the task text and the fields below, and no claim mentions
the prompt texts.  The float `success_rate` literals are embedded as
rationals. -/

structure Agent where
  id : Nat
  name : String
  type_ : String
  success_rate : ℚ
  tasks_completed : Nat
deriving DecidableEq, Repr

/-- Embeds `DEFAULT_AGENTS[0]` — the Code Review Specialist. -/
def agentCodeReview : Agent := ⟨1, "Code Review Specialist", "code_review", 88/100, 0⟩

/-- Embeds `DEFAULT_AGENTS[1]` — the Refactoring Specialist. -/
def agentRefactoring : Agent := ⟨2, "Refactoring Specialist", "refactoring", 91/100, 0⟩

/-- Embeds `DEFAULT_AGENTS[2]` — the Test Engineer. -/
def agentTestEngineer : Agent := ⟨3, "Test Engineer", "testing", 86/100, 0⟩

/-- Embeds `DEFAULT_AGENTS[3]` — the Software Architect. -/
def agentArchitect : Agent := ⟨4, "Software Architect", "architecture", 92/100, 0⟩

/-- Embeds `DEFAULT_AGENTS[4]` — the Bug Detection Specialist. -/
def agentDebugging : Agent := ⟨5, "Bug Detection Specialist", "debugging", 85/100, 0⟩

/-- Embeds `DEFAULT_AGENTS[5]` — the Code Generation Specialist. -/
def agentCodeGeneration : Agent := ⟨6, "Code Generation Specialist", "code_generation", 90/100, 0⟩

/-- Embeds `DEFAULT_AGENTS[6]` — the DevOps Specialist. -/
def agentDevOps : Agent := ⟨7, "DevOps Specialist", "devops", 88/100, 0⟩

/-- Embeds `DEFAULT_AGENTS` (`src/backend/src/api/app.py`). -/
def DEFAULT_AGENTS : List Agent :=
  [agentCodeReview, agentRefactoring, agentTestEngineer, agentArchitect,
   agentDebugging, agentCodeGeneration, agentDevOps]

/-- Embeds `find_agent_for_task` (`src/backend/src/api/app.py`, lines 173-212).
`agent_type = none` models Python `agent_type=None`; an empty string is
falsy in Python, so `if agent_type:` skips the type match for it. -/
def find_agent_for_task (task : String) (agent_type : Option String) : Agent :=
  let byType : Option Agent :=
    match agent_type with
    | none => none
    | some t => if t = "" then none else DEFAULT_AGENTS.find? (fun a => a.type_ = t)
  match byType with
  | some a => a
  | none =>
    if ["review", "security", "vulnerability"].any
        (fun kw => strContainsSub (pyLower task) kw) then agentCodeReview
    else if ["refactor", "clean", "improve structure"].any
        (fun kw => strContainsSub (pyLower task) kw) then agentRefactoring
    else if ["test", "coverage", "unit test"].any
        (fun kw => strContainsSub (pyLower task) kw) then agentTestEngineer
    else if ["architect", "design", "scale"].any
        (fun kw => strContainsSub (pyLower task) kw) then agentArchitect
    else if ["bug", "debug", "fix", "error"].any
        (fun kw => strContainsSub (pyLower task) kw) then agentDebugging
    else agentCodeReview

/-- The keyword rules of `find_agent_for_task`, in their source order,
paired with the agent each selects.  Used to state that the keyword path
is a first-match scan in this fixed priority order. -/
def keywordRules : List (List String × Agent) :=
  [(["review", "security", "vulnerability"], agentCodeReview),
   (["refactor", "clean", "improve structure"], agentRefactoring),
   (["test", "coverage", "unit test"], agentTestEngineer),
   (["architect", "design", "scale"], agentArchitect),
   (["bug", "debug", "fix", "error"], agentDebugging)]

/-- First-match scan over `keywordRules` with the review specialist as
the default, as the specification describes the keyword path. -/
def firstMatchScan (task : String) : Agent :=
  match keywordRules.find?
      (fun r => r.1.any (fun kw => strContainsSub (pyLower task) kw)) with
  | some r => r.2
  | none => agentCodeReview

/-! ## The agent-selection portion of `execute_task` (full mode)

`find_best_agent_for_task` (`src/backend/src/router/intelligent_router.py`,
lines 151-198) computes the task embedding, queries the agent repository
ordered by distance, success rate and routing priority, and returns the
top row, or `None` when the repository returns no row.  It contains no
exception handler: an error raised by the embedding model or the database
cursor propagates to the caller.  The embedding call and the repository
query are external collaborators, passed here as `Except` values; the
row-to-dict conversion is value-preserving and elided. -/

def find_best_agent_model (embed : Except String (List ℚ))
    (queryRows : List ℚ → Except String (List Agent)) :
    Except String (Option Agent) := do
  let e ← embed
  let rows ← queryRows e
  pure rows.head?

/-- Outcome of the selection portion of the `execute_task` endpoint:
either an agent was selected, or the endpoint's catch-all handler turned
an exception into an error (HTTP 500) response. -/
inductive TaskOutcome where
  | ok : Agent → TaskOutcome
  | errorResponse : String → TaskOutcome
deriving DecidableEq, Repr

/-- The agent-selection flow of `execute_task`
(`src/backend/src/api/app.py`, lines 342-401, full mode, hosted route):
`router.find_best_agent_for_task` runs inside the endpoint's `try`;
only a `None` result (`if not agent:`) falls back to
`find_agent_for_task`, while a raised exception reaches the endpoint's
`except Exception` handler, which returns an error response. -/
def execute_task_selection (embed : Except String (List ℚ))
    (queryRows : List ℚ → Except String (List Agent))
    (task : String) (agent_type : Option String) : TaskOutcome :=
  match find_best_agent_model embed queryRows with
  | Except.error e => TaskOutcome.errorResponse e
  | Except.ok none => TaskOutcome.ok (find_agent_for_task task agent_type)
  | Except.ok (some a) => TaskOutcome.ok a

/-! ## MCP tool recommendation

`MCPTool` embeds the registry rows consumed by
`MCPServerManager.recommend_tools_for_project`
(`src/backend/src/mcp/manager.py`).  Only the fields the classification
reads are kept (`name` and the float `distance`, embedded as a rational);
the descriptive columns (`type`, `description`, `capabilities`,
`install_command`) never influence the result. -/

structure MCPTool where
  name : String
  distance : ℚ
deriving DecidableEq, Repr

/-- Embeds `MCPServerManager._is_essential`
(`src/backend/src/mcp/manager.py`, lines 71-96). -/
def is_essential (tool : MCPTool) (tech_stack requirements : List String) : Bool :=
  ["filesystem", "github", "memory"].contains tool.name
  || (tool.name == "postgresql"
      && (tech_stack.map pyLower).any
          (fun s => strContainsSub s "postgres" || strContainsSub s "sql"))
  || (tool.name == "slack"
      && (requirements.map pyLower).any
          (fun r => strContainsSub r "team" || strContainsSub r "collaboration"))
  || (tool.name == "puppeteer"
      && (requirements.map pyLower).any
          (fun r => strContainsSub r "testing" || strContainsSub r "e2e"))
  || (tool.name == "brave-search"
      && (requirements.map pyLower).any (fun r => strContainsSub r "research"))

/-- The categorization of `recommend_tools_for_project`
(`src/backend/src/mcp/manager.py`, lines 18-69).  `candidates` is the row
list the registry query returns (the SQL orders it by ascending distance,
filters on reliability and fetches at most 10 rows); the constant
`reason` label the code attaches to each returned entry is elided.  The
result pairs the `essential` list with the `recommended` list (capped at
5 entries, as `recommended[:5]`). -/
def recommend_tools_for_project (candidates : List MCPTool)
    (tech_stack requirements : List String) : List MCPTool × List MCPTool :=
  let pair := candidates.foldl
    (fun acc tool =>
      if is_essential tool tech_stack requirements then (acc.1 ++ [tool], acc.2)
      else if tool.distance < (0.5 : ℚ) then (acc.1, acc.2 ++ [tool])
      else acc)
    ([], [])
  (pair.1, pair.2.take 5)

/-! ## MD5 (Python `hashlib.md5(data).hexdigest()`)

The cache key derivation of `IntelligentCache` digests UTF-8 encoded
strings with MD5.  The algorithm is embedded in full (RFC 1321), over
`Nat` with explicit reduction modulo `2 ^ 32`. -/

/-- UTF-8 encoding of one character (Python `str.encode()`), as byte
values. -/
def utf8Bytes (c : Char) : List Nat :=
  let n := c.toNat
  if n < 128 then [n]
  else if n < 2048 then [192 + n / 64, 128 + n % 64]
  else if n < 65536 then [224 + n / 4096, 128 + (n / 64) % 64, 128 + n % 64]
  else [240 + n / 262144, 128 + (n / 4096) % 64, 128 + (n / 64) % 64, 128 + n % 64]

/-- UTF-8 encoding of a string as byte values. -/
def strBytes (s : String) : List Nat := (s.toList.map utf8Bytes).flatten

/-- The 32-bit modulus. -/
def w32 : Nat := 4294967296

/-- Bitwise complement on 32 bits. -/
def bnot32 (x : Nat) : Nat := 4294967295 - x % w32

/-- Left rotation on 32 bits. -/
def rotl32 (x s : Nat) : Nat := (x % w32) * 2 ^ s % w32 + x % w32 / 2 ^ (32 - s)

/-- MD5 round function F. -/
def md5F (b c d : Nat) : Nat := (b &&& c) ||| (bnot32 b &&& d)

/-- MD5 round function G. -/
def md5G (b c d : Nat) : Nat := (d &&& b) ||| (bnot32 d &&& c)

/-- MD5 round function H. -/
def md5H (b c d : Nat) : Nat := b ^^^ c ^^^ d

/-- MD5 round function I. -/
def md5I (b c d : Nat) : Nat := c ^^^ (b ||| bnot32 d)

/-- MD5 sine-derived constants. -/
def md5K : List Nat :=
  [0xd76aa478, 0xe8c7b756, 0x242070db, 0xc1bdceee, 0xf57c0faf, 0x4787c62a, 0xa8304613, 0xfd469501,
   0x698098d8, 0x8b44f7af, 0xffff5bb1, 0x895cd7be, 0x6b901122, 0xfd987193, 0xa679438e, 0x49b40821,
   0xf61e2562, 0xc040b340, 0x265e5a51, 0xe9b6c7aa, 0xd62f105d, 0x02441453, 0xd8a1e681, 0xe7d3fbc8,
   0x21e1cde6, 0xc33707d6, 0xf4d50d87, 0x455a14ed, 0xa9e3e905, 0xfcefa3f8, 0x676f02d9, 0x8d2a4c8a,
   0xfffa3942, 0x8771f681, 0x6d9d6122, 0xfde5380c, 0xa4beea44, 0x4bdecfa9, 0xf6bb4b60, 0xbebfbc70,
   0x289b7ec6, 0xeaa127fa, 0xd4ef3085, 0x04881d05, 0xd9d4d039, 0xe6db99e5, 0x1fa27cf8, 0xc4ac5665,
   0xf4292244, 0x432aff97, 0xab9423a7, 0xfc93a039, 0x655b59c3, 0x8f0ccc92, 0xffeff47d, 0x85845dd1,
   0x6fa87e4f, 0xfe2ce6e0, 0xa3014314, 0x4e0811a1, 0xf7537e82, 0xbd3af235, 0x2ad7d2bb, 0xeb86d391]

/-- MD5 per-round left-rotation amounts. -/
def md5S : List Nat :=
  [7, 12, 17, 22, 7, 12, 17, 22, 7, 12, 17, 22, 7, 12, 17, 22,
   5, 9, 14, 20, 5, 9, 14, 20, 5, 9, 14, 20, 5, 9, 14, 20,
   4, 11, 16, 23, 4, 11, 16, 23, 4, 11, 16, 23, 4, 11, 16, 23,
   6, 10, 15, 21, 6, 10, 15, 21, 6, 10, 15, 21, 6, 10, 15, 21]

/-- Little-endian byte decomposition of `x` into `count` bytes. -/
def leBytes (count x : Nat) : List Nat :=
  (List.range count).map (fun i => x / 2 ^ (8 * i) % 256)

/-- MD5 padding: a 1-bit, zeros to 56 mod 64 bytes, then the bit length
as a 64-bit little-endian quantity. -/
def md5Pad (msg : List Nat) : List Nat :=
  msg ++ [128] ++ List.replicate ((56 + 64 - (msg.length + 1) % 64) % 64) 0
      ++ leBytes 8 (msg.length * 8)

/-- Splits a byte sequence into 64-byte blocks. -/
def toBlocks : List Nat → List (List Nat)
  | [] => []
  | b :: rest => ((b :: rest).take 64) :: toBlocks ((b :: rest).drop 64)
termination_by l => l.length
decreasing_by simp; omega

/-- The sixteen 32-bit little-endian words of one 64-byte block. -/
def blockWords (b : List Nat) : List Nat :=
  (List.range 16).map (fun j =>
    b.getD (4 * j) 0 + 256 * b.getD (4 * j + 1) 0
      + 65536 * b.getD (4 * j + 2) 0 + 16777216 * b.getD (4 * j + 3) 0)

/-- One of the 64 MD5 rounds on the state (a, b, c, d). -/
def md5Round (M : List Nat) (st : Nat × Nat × Nat × Nat) (i : Nat) : Nat × Nat × Nat × Nat :=
  let a := st.1
  let b := st.2.1
  let c := st.2.2.1
  let d := st.2.2.2
  let fg : Nat × Nat :=
    if i < 16 then (md5F b c d, i)
    else if i < 32 then (md5G b c d, (5 * i + 1) % 16)
    else if i < 48 then (md5H b c d, (3 * i + 5) % 16)
    else (md5I b c d, (7 * i) % 16)
  let tmp := (a + fg.1 + md5K.getD i 0 + M.getD fg.2 0) % w32
  (d, (b + rotl32 tmp (md5S.getD i 0)) % w32, b, c)

/-- Processes one 64-byte block. -/
def md5Block (st : Nat × Nat × Nat × Nat) (block : List Nat) : Nat × Nat × Nat × Nat :=
  let M := blockWords block
  let r := (List.range 64).foldl (md5Round M) st
  ((st.1 + r.1) % w32, (st.2.1 + r.2.1) % w32,
   (st.2.2.1 + r.2.2.1) % w32, (st.2.2.2 + r.2.2.2) % w32)

/-- Lower-case hexadecimal digit. -/
def hexChar (n : Nat) : Char :=
  if n < 10 then Char.ofNat (48 + n) else Char.ofNat (87 + n % 16)

/-- Lower-case hexadecimal rendering of a byte sequence. -/
def bytesToHex (bs : List Nat) : String :=
  String.mk (bs.foldr (fun b acc => hexChar (b / 16) :: hexChar (b % 16) :: acc) [])

/-- Python `hashlib.md5(s.encode()).hexdigest()`.  Validated against the
RFC 1321 test vectors (empty string, `abc`, and the quick-brown-fox
sentence). -/
def md5hex (s : String) : String :=
  let st := (toBlocks (md5Pad (strBytes s))).foldl md5Block
    (0x67452301, 0xefcdab89, 0x98badcfe, 0x10325476)
  bytesToHex (leBytes 4 st.1 ++ leBytes 4 st.2.1 ++ leBytes 4 st.2.2.1 ++ leBytes 4 st.2.2.2)

/-! ## JSON context serialization and `_make_key`

Cache contexts are Python dicts with string keys; `json.dumps(context,
sort_keys=True)` serializes them with keys sorted lexicographically.
`CtxVal` covers the JSON-serializable leaf values the cache is used
with (strings, integers, booleans, `None`). -/

inductive CtxVal where
  | s : String → CtxVal
  | i : Int → CtxVal
  | b : Bool → CtxVal
  | n : CtxVal
deriving DecidableEq, Repr

/-- JSON string escaping for quote and backslash characters (the control
and non-ASCII escapes of `json.dumps` are not needed for the printable
ASCII contexts the cache receives). -/
def jsonEscape (s : String) : String :=
  String.mk (s.toList.foldr (fun c acc =>
    if c = '"' then '\\' :: '"' :: acc
    else if c = '\\' then '\\' :: '\\' :: acc
    else c :: acc) [])

/-- JSON rendering of one context value, as `json.dumps` renders it. -/
def dumpVal : CtxVal → String
  | CtxVal.s v => "\"" ++ jsonEscape v ++ "\""
  | CtxVal.i m => toString m
  | CtxVal.b true => "true"
  | CtxVal.b false => "false"
  | CtxVal.n => "null"

/-- Python `json.dumps(context, sort_keys=True)`: entries sorted by key,
rendered with the default `", "` and `": "` separators. -/
def dumpsCtx (m : List (String × CtxVal)) : String :=
  "\x7b" ++ String.intercalate ", "
    ((List.insertionSort (fun a b => a.1 ≤ b.1) m).map
      (fun p => "\"" ++ jsonEscape p.1 ++ "\": " ++ dumpVal p.2)) ++ "\x7d"

instance : IsTotal (String × CtxVal) (fun a b => a.1 ≤ b.1) :=
  ⟨fun a b => le_total a.1 b.1⟩

instance : IsTrans (String × CtxVal) (fun a b => a.1 ≤ b.1) :=
  ⟨fun _ _ _ h1 h2 => le_trans h1 h2⟩

instance : IsAntisymm (String × CtxVal) (fun a b => a.1 < b.1) :=
  ⟨fun _ _ h1 h2 => absurd h2 (lt_asymm h1)⟩

/-- Embeds `IntelligentCache._make_key`
(`src/backend/src/cache/intelligent_cache.py`, lines 120-125).  An
empty dict is falsy in Python, so `if context:` treats it like `None`. -/
def _make_key (query : String) (context : Option (List (String × CtxVal))) : String :=
  md5hex (match context with
    | none => query
    | some m => if m.isEmpty then query else query ++ dumpsCtx m)

/-! ## The cachetools stores

`IntelligentCache.__init__` builds its three in-process tiers from the
`cachetools` library: `TTLCache(maxsize, ttl)` for the response and
agent-selection tiers and `LRUCache(maxsize)` for the embedding tier.
The library's behaviour is embedded here from its documented and
published semantics: a `TTLCache` keeps its entries in insertion order,
lazily drops entries whose expiry time has been reached, and when over
capacity evicts the oldest remaining entry; an `LRUCache` keeps entries
in recency order, moves an entry to the back on every hit, and evicts
the least recently used entry when over capacity.  Time is an explicit
`Nat` parameter (the library reads a monotonic timer). -/

structure TTLEntry (V : Type) where
  key : String
  val : V
  expiry : Nat
deriving DecidableEq, Repr

structure TTLCacheM (V : Type) where
  maxsize : Nat
  ttl : Nat
  entries : List (TTLEntry V)
deriving DecidableEq, Repr

/-- Lazy expiry: drops the entries whose expiry time has been reached
(`expires <= time` in the library). -/
def ttlExpire (t : Nat) (es : List (TTLEntry V)) : List (TTLEntry V) :=
  es.filter (fun e => t < e.expiry)

/-- Models `TTLCache.__setitem__` at time `t`: expire, then either update
an existing key in place (moving its link to the back with a fresh
expiry) or evict oldest entries down to capacity and append.  The
in-process tiers are always built with positive `maxsize`, where this
matches the library (the library raises on inserting into a zero-sized
cache). -/
def ttlSet (c : TTLCacheM V) (t : Nat) (k : String) (v : V) : TTLCacheM V :=
  let es := ttlExpire t c.entries
  if es.any (fun e => e.key == k) then
    { c with entries := es.filter (fun e => !(e.key == k)) ++ [⟨k, v, t + c.ttl⟩] }
  else
    { c with entries := es.drop (es.length + 1 - c.maxsize) ++ [⟨k, v, t + c.ttl⟩] }

/-- Models `TTLCache` lookup at time `t` (both `key in cache` followed by
`cache[key]`, and `cache.get(key)`): an entry is visible only while
`t < expiry`; lookups do not reorder entries. -/
def ttlGet (c : TTLCacheM V) (t : Nat) (k : String) : Option V :=
  match c.entries.find? (fun e => e.key == k) with
  | none => none
  | some e => if t < e.expiry then some e.val else none

structure LRUCacheM (V : Type) where
  maxsize : Nat
  entries : List (String × V)
deriving DecidableEq, Repr

/-- Models `LRUCache.__setitem__`: update an existing key (moving it to
the most-recent end) or evict least-recently-used entries down to
capacity and append. -/
def lruSet (c : LRUCacheM V) (k : String) (v : V) : LRUCacheM V :=
  if c.entries.any (fun e => e.1 == k) then
    { c with entries := c.entries.filter (fun e => !(e.1 == k)) ++ [(k, v)] }
  else
    { c with entries := c.entries.drop (c.entries.length + 1 - c.maxsize) ++ [(k, v)] }

/-- Models `LRUCache.get`: a hit returns the value and refreshes the
entry's recency. -/
def lruGet (c : LRUCacheM V) (k : String) : Option V × LRUCacheM V :=
  match c.entries.find? (fun e => e.1 == k) with
  | none => (none, c)
  | some e => (some e.2, { c with entries := c.entries.filter (fun x => !(x.1 == k)) ++ [e] })

/-! ## The backing store (Redis) and `IntelligentCache`

The optional Redis client is modelled as a store that is either healthy
or failing: every operation on a failing store raises (returns
`Except.error`), which is how connectivity loss and serialization
errors reach the call sites that `intelligent_cache.py` wraps in
`try`/`except`.  Values reach Redis JSON-serialized and come back
through `json.loads`; that round trip is value-preserving for the
dict payloads the cache stores, so the model stores the values
themselves.  Redis-side TTL expiry (`setex`) affects only the backing
store's own retention and is elided. -/

structure RedisM (V : Type) where
  healthy : Bool
  store : List (String × V)
deriving DecidableEq, Repr

/-- Models `redis_client.get`: raises when the store is failing. -/
def redisGet (r : RedisM V) (k : String) : Except Unit (Option V) :=
  if r.healthy then Except.ok ((r.store.find? (fun e => e.1 == k)).map Prod.snd)
  else Except.error ()

/-- Models `redis_client.setex`: raises when the store is failing. -/
def redisSetex (r : RedisM V) (k : String) (v : V) : Except Unit (RedisM V) :=
  if r.healthy then
    Except.ok { r with store := r.store.filter (fun e => !(e.1 == k)) ++ [(k, v)] }
  else Except.error ()

/-- The state of one `IntelligentCache` instance: the three in-process
tiers and the optional Redis client (`V`, `E`, `A` are the value types
of the response, embedding and agent-selection tiers). -/
structure IntelligentCacheM (V E A : Type) where
  response_cache : TTLCacheM V
  embedding_cache : LRUCacheM E
  agent_selection_cache : TTLCacheM A
  redis_client : Option (RedisM V)
deriving DecidableEq, Repr

/-- Embeds `IntelligentCache.__init__`
(`src/backend/src/cache/intelligent_cache.py`, lines 25-39).  `attempt`
is the outcome of the guarded `redis.from_url(...)` / `ping()` sequence:
`none` when no URL is configured (or the redis module is absent),
`some (Except.error _)` when `from_url` or `ping` raises — the handler
then sets the client to `None` — and `some (Except.ok (r, pong))` when
both calls return, `pong` being `ping()`'s return value, which the code
discards. -/
def initCache (V E A : Type) (attempt : Option (Except Unit (RedisM V × Bool))) :
    IntelligentCacheM V E A :=
  { response_cache := ⟨1000, 3600, []⟩
    embedding_cache := ⟨10000, []⟩
    agent_selection_cache := ⟨500, 7200, []⟩
    redis_client :=
      match attempt with
      | none => none
      | some (Except.error _) => none
      | some (Except.ok (r, _)) => some r }

/-- Embeds `get_cached_response` (lines 41-64): memory first; on a miss
with Redis configured, a guarded Redis read whose failure is swallowed
(`except Exception: pass`); a Redis hit is written back into the memory
tier. -/
def get_cached_response (c : IntelligentCacheM V E A) (t : Nat) (query : String)
    (context : Option (List (String × CtxVal))) : Option V × IntelligentCacheM V E A :=
  let cache_key := _make_key query context
  match ttlGet c.response_cache t cache_key with
  | some v => (some v, c)
  | none =>
    match c.redis_client with
    | none => (none, c)
    | some r =>
      match redisGet r ("response:" ++ cache_key) with
      | Except.error _ => (none, c)
      | Except.ok none => (none, c)
      | Except.ok (some v) =>
        (some v, { c with response_cache := ttlSet c.response_cache t cache_key v })

/-- Embeds `cache_response` (lines 66-89): unconditional memory write,
then a guarded best-effort Redis write whose failure is swallowed. -/
def cache_response (c : IntelligentCacheM V E A) (t : Nat) (query : String)
    (response : V) (context : Option (List (String × CtxVal))) : IntelligentCacheM V E A :=
  let cache_key := _make_key query context
  let c' := { c with response_cache := ttlSet c.response_cache t cache_key response }
  match c'.redis_client with
  | none => c'
  | some r =>
    match redisSetex r ("response:" ++ cache_key) response with
    | Except.error _ => c'
    | Except.ok r' => { c' with redis_client := some r' }

/-- Embeds `get_cached_embedding` (lines 91-94): an MD5 text digest
keys the LRU tier; Redis is never consulted. -/
def get_cached_embedding (c : IntelligentCacheM V E A) (text : String) :
    Option E × IntelligentCacheM V E A :=
  let p := lruGet c.embedding_cache (md5hex text)
  (p.1, { c with embedding_cache := p.2 })

/-- Embeds `cache_embedding` (lines 96-99). -/
def cache_embedding (c : IntelligentCacheM V E A) (text : String) (embedding : E) :
    IntelligentCacheM V E A :=
  { c with embedding_cache := lruSet c.embedding_cache (md5hex text) embedding }

/-- Converts the optional `project_id` to the JSON value stored under
the `project_id` context key. -/
def ctxOfOpt : Option String → CtxVal
  | none => CtxVal.n
  | some s => CtxVal.s s

/-- Embeds `get_cached_agent_selection` (lines 101-107): the key always
derives from a one-entry context dict, so the dict is truthy even when
`project_id` is `None`; Redis is never consulted. -/
def get_cached_agent_selection (c : IntelligentCacheM V E A) (t : Nat) (task : String)
    (project_id : Option String) : Option A :=
  ttlGet c.agent_selection_cache t
    (_make_key task (some [("project_id", ctxOfOpt project_id)]))

/-- Embeds `cache_agent_selection` (lines 109-118). -/
def cache_agent_selection (c : IntelligentCacheM V E A) (t : Nat) (task : String)
    (agent : A) (project_id : Option String) : IntelligentCacheM V E A :=
  let cache_key := _make_key task (some [("project_id", ctxOfOpt project_id)])
  { c with agent_selection_cache := ttlSet c.agent_selection_cache t cache_key agent }

/-- The record `get_stats` returns (lines 133-149). -/
structure CacheStats where
  response_size : Nat
  response_maxsize : Nat
  embedding_size : Nat
  embedding_maxsize : Nat
  agent_size : Nat
  agent_maxsize : Nat
  redis_connected : Bool
deriving DecidableEq, Repr

/-- Embeds `get_stats`: the in-process sizes (`len` of a `TTLCache`
counts only unexpired entries at the current time) and whether a Redis
client is configured (`self.redis_client is not None`). -/
def get_stats (c : IntelligentCacheM V E A) (t : Nat) : CacheStats :=
  { response_size := (ttlExpire t c.response_cache.entries).length
    response_maxsize := c.response_cache.maxsize
    embedding_size := c.embedding_cache.entries.length
    embedding_maxsize := c.embedding_cache.maxsize
    agent_size := (ttlExpire t c.agent_selection_cache.entries).length
    agent_maxsize := c.agent_selection_cache.maxsize
    redis_connected := c.redis_client.isSome }

/-- A family of pairwise-distinct cache keys (the key of index `i` is a
run of `i` copies of `a`), each paired with the value `0`; used to
instantiate the capacity law on concrete inputs. -/
def padKeys (n : Nat) : List (String × Nat) :=
  (List.range n).map (fun i => (String.mk (List.replicate i 'a'), 0))

-- Scenario checks from the specification (§8).
example : classify_query_complexity "Summarize this document tldr" = Route.ollama := by decide
example : classify_query_complexity "Refactor and architect the payment module" = Route.claude := by decide
example : classify_query_complexity "Write SQL to join orders and users" = Route.oracle := by decide
example : classify_query_complexity "Hello" = Route.ollama := by decide
example : classify_query "" = Route.ollama := by decide
example : classify_query_complexity "" = Route.ollama := by decide

/-- C1 (counterexample): the router classifier violates the claim.  The
query of twenty `a` words triggers no analytics phrase, has both keyword
counts below their thresholds and a word count at the length threshold,
yet `classify_query_complexity` returns the local model, not the hosted
model: the router's long-query fallback returns the hosted model only
for texts containing `code`, `develop` or `build`. -/
theorem C1_counterexample :
    oracle_keywords.any
      (fun kw => strContainsSub (pyLower "a a a a a a a a a a a a a a a a a a a a") kw)
      = false ∧
    countMatches complex_keywords (pyLower "a a a a a a a a a a a a a a a a a a a a") < 2 ∧
    countMatches simple_keywords (pyLower "a a a a a a a a a a a a a a a a a a a a") < 2 ∧
    20 ≤ pyWordCount "a a a a a a a a a a a a a a a a a a a a" ∧
    classify_query_complexity "a a a a a a a a a a a a a a a a a a a a" = Route.ollama ∧
    classify_query_complexity "a a a a a a a a a a a a a a a a a a a a" ≠ Route.claude := by
  decide

/-- C1 (amended): for queries with no analytics trigger and both keyword
counts below the respective classifier's thresholds, both classifiers
return the local model below their length thresholds (20 words for the
router, 15 for the API variant); at or above the threshold the API
classifier returns the hosted model, while the router classifier returns
the hosted model only when the text contains `code`, `develop` or
`build`, and the local model otherwise. -/
theorem C1_amended (q : String)
    (ho : oracle_keywords.any (fun kw => strContainsSub (pyLower q) kw) = false)
    (hcR : countMatches complex_keywords (pyLower q) < 2)
    (hsR : countMatches simple_keywords (pyLower q) < 2)
    (hcA : countMatches COMPLEX_KEYWORDS (pyLower q) < 1)
    (hsA : countMatches SIMPLE_KEYWORDS (pyLower q) < 1) :
    (pyWordCount q < 20 → classify_query_complexity q = Route.ollama) ∧
    (20 ≤ pyWordCount q →
      classify_query_complexity q =
        if ["code", "develop", "build"].any (fun kw => strContainsSub (pyLower q) kw)
        then Route.claude else Route.ollama) ∧
    (pyWordCount q < 15 → classify_query q = Route.ollama) ∧
    (15 ≤ pyWordCount q → classify_query q = Route.claude) := by
  have h2 : ¬ 2 ≤ countMatches complex_keywords (pyLower q) := by omega
  have h3 : ¬ 2 ≤ countMatches simple_keywords (pyLower q) := by omega
  have h4 : ¬ 1 ≤ countMatches COMPLEX_KEYWORDS (pyLower q) := by omega
  have h5 : ¬ 1 ≤ countMatches SIMPLE_KEYWORDS (pyLower q) := by omega
  refine ⟨fun hwc => ?_, fun hwc => ?_, fun hwc => ?_, fun hwc => ?_⟩
  · simp [classify_query_complexity, ho, h2, h3, hwc]
  · simp [classify_query_complexity, ho, h2, h3, show ¬ pyWordCount q < 20 by omega]
  · simp [classify_query, h4, h5, hwc]
  · simp [classify_query, h4, h5, show ¬ pyWordCount q < 15 by omega]

/-- Witness for `C1_amended`: the one-word query `x` satisfies every
hypothesis, and the theorem yields the local-model route for it. -/
theorem C1_amended_witness :
    countMatches complex_keywords (pyLower "x") < 2 ∧
    classify_query_complexity "x" = Route.ollama :=
  ⟨by decide,
   (C1_amended "x" (by decide) (by decide) (by decide) (by decide) (by decide)).1
     (by decide)⟩

/-- C8: on the keyword selection path with no type hint,
`find_agent_for_task` is the first-match scan over the domain keyword
sets in the fixed source order (security/review, refactor/clean,
test/coverage, architecture/scale, bug/debug), with the review
specialist as default; in particular `Find security vulnerabilities`
selects the code-review agent. -/
theorem C8_keyword_priority :
    (∀ task, find_agent_for_task task none = firstMatchScan task) ∧
    find_agent_for_task "Find security vulnerabilities" none = agentCodeReview ∧
    agentCodeReview.type_ = "code_review" := by
  refine ⟨fun task => ?_, rfl, rfl⟩
  unfold find_agent_for_task firstMatchScan
  by_cases h1 : (["review", "security", "vulnerability"].any
      (fun kw => strContainsSub (pyLower task) kw)) = true <;>
  by_cases h2 : (["refactor", "clean", "improve structure"].any
      (fun kw => strContainsSub (pyLower task) kw)) = true <;>
  by_cases h3 : (["test", "coverage", "unit test"].any
      (fun kw => strContainsSub (pyLower task) kw)) = true <;>
  by_cases h4 : (["architect", "design", "scale"].any
      (fun kw => strContainsSub (pyLower task) kw)) = true <;>
  by_cases h5 : (["bug", "debug", "fix", "error"].any
      (fun kw => strContainsSub (pyLower task) kw)) = true <;>
  simp [keywordRules, List.find?, h1, h2, h3, h4, h5]

/-- C2 (counterexample): an error raised on the semantic path is not
treated as "no result".  With the embedding provider raising (left) or
the agent repository raising (right), the selection flow of
`execute_task` produces an error response — the keyword fallback never
runs and the failure is surfaced as fatal to the caller. -/
theorem C2_counterexample :
    execute_task_selection (Except.error "ORA-12541: TNS no listener")
        (fun _ => Except.ok []) "Review this code" none
      = TaskOutcome.errorResponse "ORA-12541: TNS no listener" ∧
    execute_task_selection (Except.ok [1])
        (fun _ => Except.error "DPY-4011: connection lost") "Review this code" none
      = TaskOutcome.errorResponse "DPY-4011: connection lost" ∧
    (∀ a, execute_task_selection (Except.error "ORA-12541: TNS no listener")
        (fun _ => Except.ok []) "Review this code" none ≠ TaskOutcome.ok a) := by
  refine ⟨rfl, rfl, fun a h => ?_⟩
  rw [show execute_task_selection (Except.error "ORA-12541: TNS no listener")
        (fun _ => Except.ok []) "Review this code" none
      = TaskOutcome.errorResponse "ORA-12541: TNS no listener" from rfl] at h
  exact TaskOutcome.noConfusion h

/-- C2 (amended): only an empty semantic result triggers the keyword
fallback.  An error raised by the embedding provider or the repository
propagates through `find_best_agent_for_task` (which has no handler) to
the endpoint's catch-all, producing an error response rather than a
keyword-path agent; a non-empty result returns its top candidate. -/
theorem C2_amended (task : String) (agent_type : Option String) :
    (∀ e queryRows,
      execute_task_selection (Except.error e) queryRows task agent_type
        = TaskOutcome.errorResponse e) ∧
    (∀ emb e,
      execute_task_selection (Except.ok emb) (fun _ => Except.error e) task agent_type
        = TaskOutcome.errorResponse e) ∧
    (∀ emb,
      execute_task_selection (Except.ok emb) (fun _ => Except.ok []) task agent_type
        = TaskOutcome.ok (find_agent_for_task task agent_type)) ∧
    (∀ emb a rest,
      execute_task_selection (Except.ok emb) (fun _ => Except.ok (a :: rest)) task agent_type
        = TaskOutcome.ok a) :=
  ⟨fun _ _ => rfl, fun _ _ => rfl, fun _ => rfl, fun _ _ _ => rfl⟩

/-- C4 (counterexample): the two classifiers do not differ only in the
complex-keyword threshold.  On the query `sql` both complex-keyword
counts are zero — so the threshold difference is irrelevant — yet the
router classifier returns the analytics engine while the API classifier
returns the local model. -/
theorem C4_counterexample :
    countMatches complex_keywords (pyLower "sql") = 0 ∧
    countMatches COMPLEX_KEYWORDS (pyLower "sql") = 0 ∧
    classify_query_complexity "sql" = Route.oracle ∧
    classify_query "sql" = Route.ollama ∧
    classify_query_complexity "sql" ≠ classify_query "sql" := by
  decide

/-- C4 (amended): the two classifier implementations differ in the
complex-keyword occurrence threshold, but their logic is not otherwise
identical: the keyword vocabularies differ, only the router variant can
return the analytics route, and the two disagree even on inputs where
neither complex-keyword count reaches either threshold. -/
theorem C4_amended :
    complex_keywords ≠ COMPLEX_KEYWORDS ∧
    simple_keywords ≠ SIMPLE_KEYWORDS ∧
    (∀ q, classify_query q ≠ Route.oracle) ∧
    (∃ q, countMatches complex_keywords (pyLower q) = 0 ∧
          countMatches COMPLEX_KEYWORDS (pyLower q) = 0 ∧
          classify_query_complexity q ≠ classify_query q) := by
  refine ⟨by decide, by decide, fun q h => ?_, ⟨"sql", by decide⟩⟩
  unfold classify_query at h
  split_ifs at h

/-- Helper: the categorization loop splits its input into the
essential-filtered and threshold-filtered sublists, in input order. -/
theorem recommend_foldl_spec (tech_stack requirements : List String)
    (l : List MCPTool) : ∀ (e r : List MCPTool),
    l.foldl (fun acc tool =>
        if is_essential tool tech_stack requirements then (acc.1 ++ [tool], acc.2)
        else if tool.distance < (0.5 : ℚ) then (acc.1, acc.2 ++ [tool])
        else acc) (e, r)
    = (e ++ l.filter (fun t => is_essential t tech_stack requirements),
       r ++ l.filter (fun t => !(is_essential t tech_stack requirements)
                        && decide (t.distance < (0.5 : ℚ)))) := by
  induction l with
  | nil => intro e r; simp
  | cons t l ih =>
    intro e r
    by_cases h1 : is_essential t tech_stack requirements
    · simp [h1, ih, List.filter_cons]
    · by_cases h2 : t.distance < (0.5 : ℚ)
      · simp [h1, h2, ih, List.filter_cons]
      · simp [h1, h2, ih, List.filter_cons]

/-- C9: a candidate tool lands in the essential list exactly when
`_is_essential` fires for it; among the rest, it lands in the
recommended list exactly when its distance is strictly below 0.5, up to
the cap of 5 entries; the recommended list is ordered by ascending
distance whenever the candidate list is (the registry query returns it
so ordered); tools matching neither condition appear in neither
output list. -/
theorem C9_recommend_classification (candidates : List MCPTool)
    (tech_stack requirements : List String)
    (hsorted : candidates.Pairwise (fun a b => a.distance ≤ b.distance)) :
    (recommend_tools_for_project candidates tech_stack requirements).1
      = candidates.filter (fun t => is_essential t tech_stack requirements) ∧
    (recommend_tools_for_project candidates tech_stack requirements).2
      = (candidates.filter (fun t => !(is_essential t tech_stack requirements)
            && decide (t.distance < (0.5 : ℚ)))).take 5 ∧
    (recommend_tools_for_project candidates tech_stack requirements).2.length ≤ 5 ∧
    (recommend_tools_for_project candidates tech_stack requirements).2.Pairwise
      (fun a b => a.distance ≤ b.distance) ∧
    (∀ t ∈ (recommend_tools_for_project candidates tech_stack requirements).2,
      is_essential t tech_stack requirements = false ∧ t.distance < (0.5 : ℚ)) ∧
    (∀ t ∈ candidates,
      is_essential t tech_stack requirements = false → ¬ t.distance < (0.5 : ℚ) →
      t ∉ (recommend_tools_for_project candidates tech_stack requirements).1 ∧
      t ∉ (recommend_tools_for_project candidates tech_stack requirements).2) := by
  have hspec := recommend_foldl_spec tech_stack requirements candidates [] []
  have h1 : (recommend_tools_for_project candidates tech_stack requirements).1
      = candidates.filter (fun t => is_essential t tech_stack requirements) := by
    simp [recommend_tools_for_project, hspec]
  have h2 : (recommend_tools_for_project candidates tech_stack requirements).2
      = (candidates.filter (fun t => !(is_essential t tech_stack requirements)
            && decide (t.distance < (0.5 : ℚ)))).take 5 := by
    simp [recommend_tools_for_project, hspec]
  refine ⟨h1, h2, ?_, ?_, ?_, ?_⟩
  · rw [h2]; exact (List.length_take_le _ _).trans (le_refl 5)
  · rw [h2]
    exact hsorted.sublist ((List.take_sublist _ _).trans (List.filter_sublist _))
  · intro t ht
    rw [h2] at ht
    have ht' := (List.take_sublist _ _).subset ht
    have := List.of_mem_filter ht'
    simp only [Bool.and_eq_true, Bool.not_eq_true', decide_eq_true_eq] at this
    exact this
  · intro t ht hess hdist
    constructor
    · rw [h1]
      intro hmem
      have := List.of_mem_filter hmem
      rw [hess] at this
      exact Bool.noConfusion this
    · rw [h2]
      intro hmem
      have ht' := (List.take_sublist _ _).subset hmem
      have := List.of_mem_filter ht'
      simp only [Bool.and_eq_true, Bool.not_eq_true', decide_eq_true_eq] at this
      exact hdist this.2

/-- Witness for `C9_recommend_classification`: a three-tool candidate
list sorted by distance, containing one always-essential tool, one
under-threshold tool and one tool matching neither condition. -/
theorem C9_witness :
    ([⟨"filesystem", 0⟩, ⟨"sqlite", 0⟩, ⟨"obscure", 1⟩] : List MCPTool).Pairwise
      (fun a b => a.distance ≤ b.distance) ∧
    (recommend_tools_for_project
      [⟨"filesystem", 0⟩, ⟨"sqlite", 0⟩, ⟨"obscure", 1⟩] ["python"] ["api"]).2.length ≤ 5 :=
  ⟨by simp, (C9_recommend_classification
      [⟨"filesystem", 0⟩, ⟨"sqlite", 0⟩, ⟨"obscure", 1⟩] ["python"] ["api"]
      (by simp)).2.2.1⟩

/-- C10: deriving a key with an empty context equals deriving it with no
context at all — the empty dict is falsy, so it contributes nothing to
the digested data. -/
theorem C10_empty_context (T : String) : _make_key T (some []) = _make_key T none := rfl

/-- Helper: sorting by key is canonical on association lists with
distinct keys — any two permutations of the same entries sort to the
same list. -/
theorem insertionSort_key_perm_eq (mA mB : List (String × CtxVal))
    (hperm : mA.Perm mB) (hnd : (mA.map Prod.fst).Nodup) :
    List.insertionSort (fun a b => a.1 ≤ b.1) mA
      = List.insertionSort (fun a b => a.1 ≤ b.1) mB := by
  have pA := List.perm_insertionSort (fun a b : String × CtxVal => a.1 ≤ b.1) mA
  have pB := List.perm_insertionSort (fun a b : String × CtxVal => a.1 ≤ b.1) mB
  have hsp : (List.insertionSort (fun a b => a.1 ≤ b.1) mA).Perm
      (List.insertionSort (fun a b => a.1 ≤ b.1) mB) := pA.trans (hperm.trans pB.symm)
  have sA := List.sorted_insertionSort (fun a b : String × CtxVal => a.1 ≤ b.1) mA
  have sB := List.sorted_insertionSort (fun a b : String × CtxVal => a.1 ≤ b.1) mB
  have ndA : ((List.insertionSort (fun a b => a.1 ≤ b.1) mA).map Prod.fst).Nodup :=
    ((pA.map Prod.fst).nodup_iff).mpr hnd
  have ndB : ((List.insertionSort (fun a b => a.1 ≤ b.1) mB).map Prod.fst).Nodup :=
    ((pB.map Prod.fst).nodup_iff).mpr (((hperm.map Prod.fst).nodup_iff).mp hnd)
  have pwA : (List.insertionSort (fun a b => a.1 ≤ b.1) mA).Pairwise
      (fun a b : String × CtxVal => a.1 ≠ b.1) := List.pairwise_map.mp ndA
  have pwB : (List.insertionSort (fun a b => a.1 ≤ b.1) mB).Pairwise
      (fun a b : String × CtxVal => a.1 ≠ b.1) := List.pairwise_map.mp ndB
  exact List.eq_of_perm_of_sorted (r := fun a b : String × CtxVal => a.1 < b.1) hsp
    ((sA.and pwA).imp (fun h => lt_of_le_of_ne h.1 h.2))
    ((sB.and pwB).imp (fun h => lt_of_le_of_ne h.1 h.2))

/-- C5: the derived cache key is insensitive to the insertion order of
the context mapping — two context dicts with the same key/value pairs
yield the same digest, because keys are sorted before serialization. -/
theorem C5_key_order_independence (T : String) (mA mB : List (String × CtxVal))
    (hperm : mA.Perm mB) (hnd : (mA.map Prod.fst).Nodup) :
    _make_key T (some mA) = _make_key T (some mB) := by
  unfold _make_key
  cases mA with
  | nil =>
    have hB : mB = [] := hperm.symm.eq_nil
    subst hB; rfl
  | cons a l =>
    cases mB with
    | nil => exact absurd hperm.eq_nil (by simp)
    | cons b r =>
      have hd : dumpsCtx (a :: l) = dumpsCtx (b :: r) := by
        unfold dumpsCtx
        rw [insertionSort_key_perm_eq _ _ hperm hnd]
      simp only [List.isEmpty_cons, Bool.false_eq_true, if_false, hd]

/-- Witness for `C5_key_order_independence`: two two-entry contexts with
the same pairs in opposite orders derive the same key. -/
theorem C5_witness :
    ([("b", CtxVal.s "1"), ("a", CtxVal.s "2")].Perm
      [("a", CtxVal.s "2"), ("b", CtxVal.s "1")]) ∧
    _make_key "q" (some [("b", CtxVal.s "1"), ("a", CtxVal.s "2")])
      = _make_key "q" (some [("a", CtxVal.s "2"), ("b", CtxVal.s "1")]) :=
  ⟨by decide, C5_key_order_independence "q" _ _ (by decide) (by decide)⟩

/-- Helper: `find?` on a list ending in a matching element, none of
whose predecessors match, returns that element. -/
theorem find?_append_singleton {δ : Type} (l : List δ) (p : δ → Bool) (x : δ)
    (hl : ∀ y ∈ l, p y = false) (hx : p x = true) :
    (l ++ [x]).find? p = some x := by
  rw [List.find?_append, List.find?_eq_none.mpr (fun y hy => by simp [hl y hy])]
  simp [List.find?_cons, hx]

/-- Helper: a `TTLCache` read of a just-written key returns the written
value while the entry is unexpired, whatever the prior state. -/
theorem ttlGet_ttlSet_self {V : Type} (c : TTLCacheM V) (t t' : Nat) (k : String) (v : V) :
    ttlGet (ttlSet c t k v) t' k = if t' < t + c.ttl then some v else none := by
  unfold ttlGet ttlSet
  by_cases hp : (ttlExpire t c.entries).any (fun e => e.key == k) = true
  · rw [if_pos hp, find?_append_singleton]
    · intro y hy
      have := (List.mem_filter.mp hy).2
      simpa using this
    · simp
  · have hp' : (ttlExpire t c.entries).any (fun e => e.key == k) = false := by
      revert hp; cases (ttlExpire t c.entries).any (fun e => e.key == k) <;> simp
    rw [if_neg hp]
    rw [find?_append_singleton]
    · intro y hy
      have hmem : y ∈ ttlExpire t c.entries := List.mem_of_mem_drop hy
      have := List.any_eq_false.mp hp' y hmem
      simpa using this
    · simp

/-- Helper: an `LRUCache` read of a just-written key returns the written
value, whatever the prior state. -/
theorem lruGet_lruSet_self {V : Type} (c : LRUCacheM V) (k : String) (v : V) :
    (lruGet (lruSet c k v) k).1 = some v := by
  unfold lruGet lruSet
  by_cases hp : c.entries.any (fun e => e.1 == k) = true
  · rw [if_pos hp, find?_append_singleton]
    · intro y hy
      have := (List.mem_filter.mp hy).2
      simpa using this
    · simp
  · have hp' : c.entries.any (fun e => e.1 == k) = false := by
      revert hp; cases c.entries.any (fun e => e.1 == k) <;> simp
    rw [if_neg hp]
    rw [find?_append_singleton]
    · intro y hy
      have hmem : y ∈ c.entries := List.mem_of_mem_drop hy
      have := List.any_eq_false.mp hp' y hmem
      simpa using this
    · simp

/-- Helper: the in-memory write of `cache_response` is a `ttlSet` of the
response tier; the best-effort Redis write never touches it. -/
theorem cache_response_memory {V E A : Type} (c : IntelligentCacheM V E A)
    (t : Nat) (q : String) (v : V) (ctx : Option (List (String × CtxVal))) :
    (cache_response c t q v ctx).response_cache
      = ttlSet c.response_cache t (_make_key q ctx) v := by
  unfold cache_response
  rcases hrc : c.redis_client with _ | r
  · simp [hrc]
  · simp only [hrc]
    rcases hs : redisSetex r ("response:" ++ _make_key q ctx) v with e | r2 <;> simp [hs]

/-- C6: putting a value and immediately getting the same key returns an
equal value on all three tiers, for any prior cache state, whenever the
read happens before the tier's TTL expires (the embedding tier has no
TTL). -/
theorem C6_roundtrip {V E A : Type} (c : IntelligentCacheM V E A) (t t' : Nat)
    (q : String) (ctx : Option (List (String × CtxVal))) (v : V)
    (txt : String) (emb : E) (task : String) (pid : Option String) (a : A)
    (hR : t' < t + c.response_cache.ttl) (hA : t' < t + c.agent_selection_cache.ttl) :
    (get_cached_response (cache_response c t q v ctx) t' q ctx).1 = some v ∧
    (get_cached_embedding (cache_embedding c txt emb) txt).1 = some emb ∧
    get_cached_agent_selection (cache_agent_selection c t task a pid) t' task pid = some a := by
  refine ⟨?_, ?_, ?_⟩
  · simp only [get_cached_response, cache_response_memory, ttlGet_ttlSet_self, hR, if_true]
  · simpa [get_cached_embedding, cache_embedding] using
      lruGet_lruSet_self c.embedding_cache (md5hex txt) emb
  · simp only [get_cached_agent_selection, cache_agent_selection, ttlGet_ttlSet_self,
      hA, if_true]

/-- Witness for `C6_roundtrip`: a freshly constructed cache with no
Redis URL satisfies both TTL bounds at time zero, and the round trip
returns the stored response. -/
theorem C6_witness :
    (0 < 0 + (initCache Nat Nat Nat none).response_cache.ttl) ∧
    (get_cached_response
      (cache_response (initCache Nat Nat Nat none) 0 "query" 42 none) 0 "query" none).1
      = some 42 :=
  ⟨by decide,
   (C6_roundtrip (initCache Nat Nat Nat none) 0 0 "query" none 42 "text" 7 "task" none 9
      (by decide) (by decide)).1⟩

/-- Helper: folding inserts of distinct fresh keys into an empty
`TTLCache` leaves the suffix that fits the capacity: entries are kept in
insertion order and the oldest are evicted first. -/
theorem ttl_foldSet_fresh {V : Type} (m ttlv t : Nat) (hm : 0 < m) (httl : 0 < ttlv) :
    ∀ (kvs : List (String × V)), (kvs.map Prod.fst).Nodup →
    kvs.foldl (fun s kv => ttlSet s t kv.1 kv.2) (⟨m, ttlv, []⟩ : TTLCacheM V)
      = ⟨m, ttlv, (kvs.map (fun kv => (⟨kv.1, kv.2, t + ttlv⟩ : TTLEntry V))).drop
          (kvs.length - m)⟩ := by
  intro kvs
  induction kvs using List.reverseRecOn with
  | nil => intro _; simp
  | append_singleton kvs kv ih =>
    intro hnd
    rw [List.map_append] at hnd
    have hnd' : (kvs.map Prod.fst).Nodup := (List.nodup_append.mp hnd).1
    have hk : kv.1 ∉ kvs.map Prod.fst := by
      intro hmem
      exact (List.nodup_append.mp hnd).2.2 hmem (List.mem_singleton_self _)
    rw [List.foldl_append, List.foldl_cons, List.foldl_nil, ih hnd']
    have hexp : ttlExpire t
        ((kvs.map (fun kv => (⟨kv.1, kv.2, t + ttlv⟩ : TTLEntry V))).drop (kvs.length - m))
        = (kvs.map (fun kv => (⟨kv.1, kv.2, t + ttlv⟩ : TTLEntry V))).drop (kvs.length - m) := by
      unfold ttlExpire
      rw [List.filter_eq_self]
      intro e he
      obtain ⟨kv2, _, rfl⟩ := List.mem_map.mp (List.mem_of_mem_drop he)
      simp only [decide_eq_true_eq]
      omega
    have hany : ((kvs.map (fun kv => (⟨kv.1, kv.2, t + ttlv⟩ : TTLEntry V))).drop
        (kvs.length - m)).any (fun e => e.key == kv.1) = false := by
      rw [List.any_eq_false]
      intro e he
      obtain ⟨kv2, hkv2, rfl⟩ := List.mem_map.mp (List.mem_of_mem_drop he)
      simp only [beq_iff_eq]
      intro heq
      exact hk (heq ▸ List.mem_map_of_mem Prod.fst hkv2)
    simp only [ttlSet, hexp, hany, Bool.false_eq_true, if_false]
    congr 1
    rw [List.length_drop, List.length_map, List.drop_drop, List.map_append,
      List.length_append, List.drop_append_eq_append_drop]
    have h1 : (kvs.length - m) + (kvs.length - (kvs.length - m) + 1 - m)
        = kvs.length + 1 - m := by omega
    have h2 : kvs.length + 1 - m
        - (kvs.map (fun kv => (⟨kv.1, kv.2, t + ttlv⟩ : TTLEntry V))).length = 0 := by
      rw [List.length_map]; omega
    simp only [List.length_cons, List.length_nil]
    rw [h1, h2]
    simp

/-- Helper: folding inserts of distinct fresh keys into an empty
`LRUCache` leaves the suffix that fits the capacity: with no intervening
reads, recency order is insertion order and the least recently used
entry is the oldest inserted. -/
theorem lru_foldSet_fresh {V : Type} (m : Nat) (hm : 0 < m) :
    ∀ (kvs : List (String × V)), (kvs.map Prod.fst).Nodup →
    kvs.foldl (fun s kv => lruSet s kv.1 kv.2) (⟨m, []⟩ : LRUCacheM V)
      = ⟨m, kvs.drop (kvs.length - m)⟩ := by
  intro kvs
  induction kvs using List.reverseRecOn with
  | nil => intro _; simp
  | append_singleton kvs kv ih =>
    intro hnd
    rw [List.map_append] at hnd
    have hnd' : (kvs.map Prod.fst).Nodup := (List.nodup_append.mp hnd).1
    have hk : kv.1 ∉ kvs.map Prod.fst := by
      intro hmem
      exact (List.nodup_append.mp hnd).2.2 hmem (List.mem_singleton_self _)
    rw [List.foldl_append, List.foldl_cons, List.foldl_nil, ih hnd']
    have hany : (kvs.drop (kvs.length - m)).any (fun e => e.1 == kv.1) = false := by
      rw [List.any_eq_false]
      intro e he
      simp only [beq_iff_eq]
      intro heq
      exact hk (heq ▸ List.mem_map_of_mem Prod.fst (List.mem_of_mem_drop he))
    simp only [lruSet, hany, Bool.false_eq_true, if_false]
    congr 1
    rw [List.length_drop, List.drop_drop, List.length_append, List.drop_append_eq_append_drop]
    have h1 : (kvs.length - m) + (kvs.length - (kvs.length - m) + 1 - m)
        = kvs.length + 1 - m := by omega
    have h2 : kvs.length + 1 - m - kvs.length = 0 := by omega
    simp only [List.length_cons, List.length_nil]
    rw [h1, h2]
    simp

/-- C3: inserting capacity+1 distinct keys into a freshly constructed
tier leaves exactly capacity entries resident, and the evicted entry is
the policy-determined one: the oldest-inserted entry for the response
tier (capacity 1000) and the agent-selection tier (capacity 500),
independent of their TTLs, and the least-recently-used — with no
intervening reads, again the first-inserted — entry for the embedding
tier (capacity 10000).  The surviving entries are exactly the inserted
sequence minus its first element. -/
theorem C3_capacity_eviction (V E A : Type) (t : Nat)
    (attempt : Option (Except Unit (RedisM V × Bool)))
    (kvsR : List (String × V)) (kvsE : List (String × E)) (kvsA : List (String × A))
    (hRlen : kvsR.length = 1001) (hRnd : (kvsR.map Prod.fst).Nodup)
    (hElen : kvsE.length = 10001) (hEnd : (kvsE.map Prod.fst).Nodup)
    (hAlen : kvsA.length = 501) (hAnd : (kvsA.map Prod.fst).Nodup) :
    (kvsR.foldl (fun s kv => ttlSet s t kv.1 kv.2)
        (initCache V E A attempt).response_cache).entries
      = (kvsR.map (fun kv => (⟨kv.1, kv.2, t + 3600⟩ : TTLEntry V))).drop 1 ∧
    (kvsR.foldl (fun s kv => ttlSet s t kv.1 kv.2)
        (initCache V E A attempt).response_cache).entries.length = 1000 ∧
    (∀ k0, (kvsR.map Prod.fst).head? = some k0 →
      ∀ e ∈ (kvsR.foldl (fun s kv => ttlSet s t kv.1 kv.2)
          (initCache V E A attempt).response_cache).entries, e.key ≠ k0) ∧
    (kvsE.foldl (fun s kv => lruSet s kv.1 kv.2)
        (initCache V E A attempt).embedding_cache).entries = kvsE.drop 1 ∧
    (kvsE.foldl (fun s kv => lruSet s kv.1 kv.2)
        (initCache V E A attempt).embedding_cache).entries.length = 10000 ∧
    (kvsA.foldl (fun s kv => ttlSet s t kv.1 kv.2)
        (initCache V E A attempt).agent_selection_cache).entries
      = (kvsA.map (fun kv => (⟨kv.1, kv.2, t + 7200⟩ : TTLEntry A))).drop 1 ∧
    (kvsA.foldl (fun s kv => ttlSet s t kv.1 kv.2)
        (initCache V E A attempt).agent_selection_cache).entries.length = 500 := by
  have hR := ttl_foldSet_fresh 1000 3600 t (by omega) (by omega) kvsR hRnd
  have hE := lru_foldSet_fresh 10000 (by omega) kvsE hEnd
  have hA := ttl_foldSet_fresh 500 7200 t (by omega) (by omega) kvsA hAnd
  have hRc : (initCache V E A attempt).response_cache = (⟨1000, 3600, []⟩ : TTLCacheM V) := rfl
  have hEc : (initCache V E A attempt).embedding_cache = (⟨10000, []⟩ : LRUCacheM E) := rfl
  have hAc : (initCache V E A attempt).agent_selection_cache
      = (⟨500, 7200, []⟩ : TTLCacheM A) := rfl
  rw [hRc, hEc, hAc, hR, hE, hA]
  have e1 : kvsR.length - 1000 = 1 := by omega
  have e2 : kvsE.length - 10000 = 1 := by omega
  have e3 : kvsA.length - 500 = 1 := by omega
  rw [e1, e2, e3]
  refine ⟨rfl, ?_, ?_, rfl, ?_, rfl, ?_⟩
  · simp [hRlen]
  · intro k0 hk0 e he heq
    rcases kvsR with _ | ⟨hd, tl⟩
    · simp at hk0
    · simp only [List.map_cons, List.head?_cons, Option.some.injEq] at hk0
      rw [List.map_cons, List.drop_one, List.tail_cons] at he
      obtain ⟨kv3, hkv3, rfl⟩ := List.mem_map.mp he
      have hkey : kv3.1 = k0 := heq
      have hmem : k0 ∈ tl.map Prod.fst := hkey ▸ List.mem_map_of_mem Prod.fst hkv3
      rw [List.map_cons] at hRnd
      rw [← hk0] at hmem
      exact (List.nodup_cons.mp hRnd).1 hmem
  · simp [hElen]
  · simp [hAlen]

/-- Helper: the distinct-key family used to instantiate the capacity
law has pairwise-distinct first components. -/
theorem padKeys_fst_nodup (n : Nat) : ((padKeys n).map Prod.fst).Nodup := by
  have hinj : Function.Injective (fun i => String.mk (List.replicate i 'a')) := by
    intro i j h
    have h2 : List.replicate i 'a' = List.replicate j 'a' := congrArg String.data h
    simpa using congrArg List.length h2
  simpa [padKeys, List.map_map, Function.comp] using
    List.Nodup.map hinj (List.nodup_range n)

/-- Witness for `C3_capacity_eviction`: 1001 concrete distinct keys
inserted into the response tier leave exactly 1000 entries. -/
theorem C3_witness :
    (padKeys 1001).length = 1001 ∧
    ((padKeys 1001).map Prod.fst).Nodup ∧
    ((padKeys 1001).foldl (fun s kv => ttlSet s 0 kv.1 kv.2)
        (initCache Nat Nat Nat none).response_cache).entries.length = 1000 :=
  ⟨by simp [padKeys], padKeys_fst_nodup 1001,
   (C3_capacity_eviction Nat Nat Nat 0 none (padKeys 1001) (padKeys 10001) (padKeys 501)
      (by simp [padKeys]) (padKeys_fst_nodup 1001)
      (by simp [padKeys]) (padKeys_fst_nodup 10001)
      (by simp [padKeys]) (padKeys_fst_nodup 501)).2.1⟩

/-- C7 (counterexample): the construction ignores the probe's return
value.  A backing store whose `ping()` returns `False` without raising
leaves the client configured, and `stats` reports the backing store as
connected — the claim's `backingConnected == false` fails in the
returns-false case. -/
theorem C7_counterexample :
    (initCache Nat Nat Nat (some (Except.ok (⟨false, []⟩, false)))).redis_client
      = some ⟨false, []⟩ ∧
    (get_stats (initCache Nat Nat Nat (some (Except.ok (⟨false, []⟩, false)))) 0).redis_connected
      = true :=
  ⟨rfl, rfl⟩

/-- C7 (amended): if the connectivity probe raises at construction, the
client is set to `None` and `stats` reports the backing store as not
connected; and whenever the backing store is absent or failing, every
get and put succeeds using only the in-process store — the Redis
failure is swallowed, the read returns exactly the in-process lookup
without changing the state, and the write performs exactly the
in-process insertion.  (A probe that returns `False` without raising is
ignored and the store is still treated as connected.) -/
theorem C7_amended (V E A : Type) (t : Nat) (c : IntelligentCacheM V E A)
    (hfail : c.redis_client = none ∨ ∃ r, c.redis_client = some r ∧ r.healthy = false)
    (q : String) (ctx : Option (List (String × CtxVal))) (v : V) :
    (initCache V E A (some (Except.error ()))).redis_client = none ∧
    (get_stats (initCache V E A (some (Except.error ()))) t).redis_connected = false ∧
    (get_cached_response c t q ctx).1 = ttlGet c.response_cache t (_make_key q ctx) ∧
    (get_cached_response c t q ctx).2 = c ∧
    cache_response c t q v ctx
      = { c with response_cache := ttlSet c.response_cache t (_make_key q ctx) v } := by
  refine ⟨rfl, rfl, ?_, ?_, ?_⟩
  · rcases hfail with hnone | ⟨r, hr, hrh⟩
    · cases hg : ttlGet c.response_cache t (_make_key q ctx) <;>
        simp [get_cached_response, hg, hnone]
    · cases hg : ttlGet c.response_cache t (_make_key q ctx) <;>
        simp [get_cached_response, hg, hr, redisGet, hrh]
  · rcases hfail with hnone | ⟨r, hr, hrh⟩
    · cases hg : ttlGet c.response_cache t (_make_key q ctx) <;>
        simp [get_cached_response, hg, hnone]
    · cases hg : ttlGet c.response_cache t (_make_key q ctx) <;>
        simp [get_cached_response, hg, hr, redisGet, hrh]
  · rcases hfail with hnone | ⟨r, hr, hrh⟩
    · simp [cache_response, hnone]
    · simp [cache_response, hr, redisSetex, hrh]

/-- Witness for `C7_amended`: a cache constructed over a failing
backing store (healthy = false); a read leaves the state untouched. -/
theorem C7_witness :
    ((initCache Nat Nat Nat (some (Except.ok (⟨false, []⟩, true)))).redis_client = none ∨
      ∃ r, (initCache Nat Nat Nat (some (Except.ok (⟨false, []⟩, true)))).redis_client
            = some r ∧ r.healthy = false) ∧
    (get_cached_response (initCache Nat Nat Nat (some (Except.ok (⟨false, []⟩, true))))
        0 "q" none).2
      = initCache Nat Nat Nat (some (Except.ok (⟨false, []⟩, true))) :=
  ⟨Or.inr ⟨⟨false, []⟩, rfl, rfl⟩,
   (C7_amended Nat Nat Nat 0 (initCache Nat Nat Nat (some (Except.ok (⟨false, []⟩, true))))
      (Or.inr ⟨⟨false, []⟩, rfl, rfl⟩) "q" none 0).2.2.2.1⟩

end AIDev
